import Mathlib

/-!
Verification of the voice-activated STT recorder (client `temp.py`) and the
STT server endpoint (`server.py`).  The client is modelled as a pure state
machine: audio frames are lists of rational sample values, timestamps are
rationals, and each operation of `VoiceActivatedRecorder` becomes a function
from a recorder state (plus inputs) to a new state and a list of emitted
events.  The dispatch path `_send_audio` is modelled as a function of the
audio data and the network outcome, and the server route `speech_to_text`
as a function of the transcription result and a translation oracle.
-/

namespace STTApp

/-- An audio frame: a fixed-size chunk of mono samples (`indata.copy()`). -/
abbrev Frame := List ℚ

/-- Configuration constants of `VoiceActivatedRecorder.__init__`. -/
structure Config where
  sample_rate : ℚ
  voice_threshold : ℚ
  silence_threshold : ℚ
  silence_duration : ℚ
  min_record_duration : ℚ
deriving DecidableEq

/-- The constants set in `VoiceActivatedRecorder.__init__` in `temp.py`. -/
def defaultConfig : Config where
  sample_rate := 16000
  voice_threshold := 0.02
  silence_threshold := 0.015
  silence_duration := 0.3
  min_record_duration := 0.5

/-- The mutable fields of `VoiceActivatedRecorder` that the segmentation
state machine reads and writes. -/
structure Recorder where
  is_recording : Bool
  is_listening : Bool
  audio_buffer : List Frame
  silence_start : Option ℚ
  record_start_time : Option ℚ
deriving DecidableEq

/-- Recorder state right after `__init__`. -/
def initState : Recorder where
  is_recording := false
  is_listening := false
  audio_buffer := []
  silence_start := none
  record_start_time := none

/-- Events the recorder emits towards the UI or the dispatch thread. -/
inductive Event where
  | recordingStarted
  | showProcessing
  | dispatch (data : List ℚ)
deriving DecidableEq

/-- `calculate_volume`: mean absolute amplitude of a chunk
(`np.abs(audio_chunk).mean()`). -/
def calculate_volume (audio_chunk : Frame) : ℚ :=
  (audio_chunk.map (fun x => |x|)).sum / audio_chunk.length

/-- `process_recording`: if the buffer is non-empty, concatenate it, clear
the buffer and the recording flag and the silence timer, and hand the flat
data to the dispatch thread (`_send_audio`), after a `showProcessing` UI
event. -/
def process_recording (s : Recorder) : Recorder × List Event :=
  if s.audio_buffer = [] then (s, [])
  else
    ({ s with audio_buffer := [], is_recording := false, silence_start := none },
     [Event.showProcessing, Event.dispatch s.audio_buffer.flatten])

/-- The body of `audio_callback` that runs while `is_recording` holds
(lines 115-132 of `temp.py`): append the frame to the buffer, then do the
silence bookkeeping, closing via `process_recording` when the silence run
and the minimum recording duration are both long enough. -/
def recordTick (cfg : Config) (s : Recorder) (frame : Frame) (volume now : ℚ) :
    Recorder × List Event :=
  let s2 : Recorder := { s with audio_buffer := s.audio_buffer ++ [frame] }
  if volume < cfg.silence_threshold then
    match s2.silence_start with
    | none => ({ s2 with silence_start := some now }, [])
    | some t0 =>
      if now - t0 ≥ cfg.silence_duration then
        match s2.record_start_time with
        | some r0 =>
          if now - r0 ≥ cfg.min_record_duration then process_recording s2
          else (s2, [])
        | none => (s2, [])
      else (s2, [])
  else ({ s2 with silence_start := none }, [])

/-- `audio_callback`: ignore the frame when not listening; otherwise compute
the volume, possibly start a recording (volume above `voice_threshold`),
and if recording (including a recording started this very tick) run the
recording body `recordTick`. -/
def audio_callback (cfg : Config) (s : Recorder) (frame : Frame) (now : ℚ) :
    Recorder × List Event :=
  if s.is_listening = false then (s, [])
  else
    let volume := calculate_volume frame
    if s.is_recording = false ∧ volume > cfg.voice_threshold then
      let s1 : Recorder :=
        { s with is_recording := true, audio_buffer := [],
                 record_start_time := some now, silence_start := none }
      ((recordTick cfg s1 frame volume now).1,
       Event.recordingStarted :: (recordTick cfg s1 frame volume now).2)
    else if s.is_recording = true then
      recordTick cfg s frame (calculate_volume frame) now
    else (s, [])

/-- `start_listening`: no-op when already listening; otherwise set the
listening flag and clear the buffer and silence timer, then try to open the
input stream; on failure the listening flag is reset. -/
def start_listening (s : Recorder) (streamOk : Bool) : Recorder :=
  if s.is_listening = true then s
  else
    let s1 : Recorder :=
      { s with is_listening := true, audio_buffer := [], silence_start := none }
    if streamOk then s1 else { s1 with is_listening := false }

/-- `stop_listening`: drop the listening flag; if a recording with a
non-empty buffer has lasted at least `min_record_duration`, close it via
`process_recording`; finally force the idle shape (not recording, empty
buffer, no silence timer). -/
def stop_listening (cfg : Config) (s : Recorder) (now : ℚ) :
    Recorder × List Event :=
  let s1 : Recorder := { s with is_listening := false }
  let closed : Recorder × List Event :=
    if s1.is_recording = true ∧ s1.audio_buffer ≠ [] then
      match s1.record_start_time with
      | some r0 =>
        if now - r0 ≥ cfg.min_record_duration then process_recording s1
        else (s1, [])
      | none => (s1, [])
    else (s1, [])
  ({ closed.1 with is_recording := false, audio_buffer := [], silence_start := none },
   closed.2)

/-- Feed a list of timestamped frames through `audio_callback`, collecting
all emitted events in order. -/
def runCallbacks (cfg : Config) (s : Recorder) :
    List (Frame × ℚ) → Recorder × List Event
  | [] => (s, [])
  | (f, t) :: rest =>
    ((runCallbacks cfg (audio_callback cfg s f t).1 rest).1,
     (audio_callback cfg s f t).2 ++
       (runCallbacks cfg (audio_callback cfg s f t).1 rest).2)

/-- The state invariant of the recorder, strengthened with the fact that a
recorder that is not listening is not recording (which makes it inductive
over all four operations): a recording state has a non-empty buffer, and
the silence timer is unset whenever no recording is in progress. -/
def Inv (s : Recorder) : Prop :=
  (s.is_recording = true → s.audio_buffer ≠ []) ∧
  (s.is_recording = false → s.silence_start = none) ∧
  (s.is_listening = false → s.is_recording = false)

/-- The recorder states reachable from `__init__` through the four
operations of `VoiceActivatedRecorder`. -/
inductive Reachable (cfg : Config) : Recorder → Prop where
  | init : Reachable cfg initState
  | callback (s : Recorder) (f : Frame) (now : ℚ) :
      Reachable cfg s → Reachable cfg (audio_callback cfg s f now).1
  | process (s : Recorder) :
      Reachable cfg s → Reachable cfg (process_recording s).1
  | start (s : Recorder) (ok : Bool) :
      Reachable cfg s → Reachable cfg (start_listening s ok)
  | stop (s : Recorder) (now : ℚ) :
      Reachable cfg s → Reachable cfg (stop_listening cfg s now).1

/-- Size in bytes of the serialized 16-bit PCM mono WAV file written by
`sf.write(temp_path, audio_data, self.sample_rate, subtype=PCM_16)`:
a 44-byte RIFF header plus two bytes per sample. -/
def wavSize (samples : ℕ) : ℕ := 44 + 2 * samples

/-- The JSON body of a server reply, as read by `_send_audio`. -/
structure ServerResponse where
  status : ℕ
  success : Bool
  original : String
  translated : String
deriving DecidableEq

/-- Outcome of the `requests.post` call in `_send_audio`: a reply from the
server, or one of the exceptions caught by the surrounding handlers. -/
inductive NetOutcome where
  | response (r : ServerResponse)
  | connectionError
  | timeout
  | otherException
deriving DecidableEq

/-- Observable effects of one `_send_audio` execution: whether the temp
WAV file was created, whether it was deleted by the end, whether the POST
to the server was attempted, and the text shown to the UI, if any. -/
structure SendResult where
  tempCreated : Bool
  tempDeleted : Bool
  posted : Bool
  resultShown : Option String
deriving DecidableEq

/-- `_send_audio`: drop utterances shorter than 0.3 s before writing any
file; write the WAV temp file; drop files under 5000 bytes (deleting the
file); otherwise POST to the server and handle the reply.  The temp file
is deleted at the end of the `try` block, so the exception paths
(connection error, timeout, anything else raised) leave it in place. -/
def sendAudio (cfg : Config) (audio_data : List ℚ) (net : NetOutcome) :
    SendResult :=
  if (audio_data.length : ℚ) < cfg.sample_rate * 0.3 then
    { tempCreated := false, tempDeleted := false, posted := false,
      resultShown := none }
  else if wavSize audio_data.length < 5000 then
    { tempCreated := true, tempDeleted := true, posted := false,
      resultShown := none }
  else
    match net with
    | NetOutcome.response r =>
      if r.status = 200 then
        if r.success then
          let text := if r.translated ≠ "" ∧ r.translated ≠ "(번역 실패)"
                      then r.translated else r.original
          { tempCreated := true, tempDeleted := true, posted := true,
            resultShown := if text.trim ≠ "" then some text else none }
        else
          { tempCreated := true, tempDeleted := true, posted := true,
            resultShown := none }
      else
        { tempCreated := true, tempDeleted := true, posted := true,
          resultShown := none }
    | _ =>
      { tempCreated := true, tempDeleted := false, posted := true,
        resultShown := none }

/-- The translation stage of the server `/stt` route: direction chosen by
the detected language, other languages pivoting through English.  The
oracle `tr source target text` returns `none` when the underlying
`GoogleTranslator` call raises, which aborts the whole `try` block. -/
def translateText (tr : String → String → String → Option String)
    (lang text : String) : Option String :=
  if lang = "ko" then tr "ko" "en" text
  else if lang = "en" then tr "en" "ko" text
  else (tr lang "en" text).bind (fun eng => tr "en" "ko" eng)

/-- The JSON body returned by the server `/stt` route on HTTP 200. -/
structure SttResponse where
  success : Bool
  original : String
  translated : String
  language : String
deriving DecidableEq

/-- The tail of the server `speech_to_text` route after transcription has
produced `rawText` and `lang`: strip the text, run the best-effort
translation stage (the `except` branch substitutes the sentinel string),
and reply with success. -/
def speech_to_text (tr : String → String → String → Option String)
    (rawText lang : String) : SttResponse :=
  { success := true,
    original := rawText.trim,
    translated := (translateText tr lang rawText.trim).getD "(번역 실패)",
    language := lang }

end STTApp

namespace STTApp

/-- Claim C9: the volume estimator returns the mean of the absolute sample
values of the frame and this value is non-negative; it is a pure function
of the frame alone, with no access to recorder state. -/
theorem C9_calculate_volume_mean_abs_nonneg (frame : Frame) :
    calculate_volume frame =
      (frame.map (fun x => |x|)).sum / (frame.length : ℚ) ∧
    0 ≤ calculate_volume frame := by
  refine ⟨rfl, ?_⟩
  unfold calculate_volume
  apply div_nonneg
  · apply List.sum_nonneg
    intro x hx
    obtain ⟨y, _, rfl⟩ := List.mem_map.mp hx
    exact abs_nonneg y
  · exact_mod_cast Nat.zero_le frame.length

/-- Claim C10: a frame delivered while the recorder is not listening leaves
the whole state unchanged and emits no event. -/
theorem C10_not_listening_ignores_frame (cfg : Config) (s : Recorder)
    (frame : Frame) (now : ℚ) (h : s.is_listening = false) :
    audio_callback cfg s frame now = (s, []) := by
  simp [audio_callback, h]

theorem C10_witness :
    audio_callback defaultConfig initState [1] 0 = (initState, []) :=
  C10_not_listening_ignores_frame defaultConfig initState [1] 0 rfl

/-- While already recording, a callback tick is exactly the recording body. -/
theorem cb_recording (cfg : Config) (s : Recorder) (f : Frame) (now : ℚ)
    (hl : s.is_listening = true) (hr : s.is_recording = true) :
    audio_callback cfg s f now = recordTick cfg s f (calculate_volume f) now := by
  simp [audio_callback, hl, hr]

/-- While not recording, a quiet frame (volume not above the voice
threshold) leaves the state unchanged and emits nothing. -/
theorem cb_idle_quiet (cfg : Config) (s : Recorder) (f : Frame) (now : ℚ)
    (hl : s.is_listening = true) (hr : s.is_recording = false)
    (hv : ¬ calculate_volume f > cfg.voice_threshold) :
    audio_callback cfg s f now = (s, []) := by
  simp [audio_callback, hl, hr, hv]

/-- A recording tick on a frame at or above the silence threshold appends
the frame and resets the silence timer. -/
theorem rt_loud (cfg : Config) (s : Recorder) (f : Frame) (volume now : ℚ)
    (h : ¬ volume < cfg.silence_threshold) :
    recordTick cfg s f volume now =
      ({ s with audio_buffer := s.audio_buffer ++ [f], silence_start := none },
       []) := by
  simp [recordTick, h]

/-- A recording tick on a silent frame with no running silence timer
appends the frame and starts the timer at the current time. -/
theorem rt_silent_first (cfg : Config) (s : Recorder) (f : Frame)
    (volume now : ℚ) (h : volume < cfg.silence_threshold)
    (hs : s.silence_start = none) :
    recordTick cfg s f volume now =
      ({ s with audio_buffer := s.audio_buffer ++ [f],
                silence_start := some now }, []) := by
  simp [recordTick, h, hs]

/-- A recording tick on a silent frame whose timer is running but for which
the close condition (silence long enough AND recording long enough) does
not yet hold only appends the frame: the silence timer is left untouched,
so a close deferred by `min_record_duration` stays armed. -/
theorem rt_silent_pending (cfg : Config) (s : Recorder) (f : Frame)
    (volume now t0 r0 : ℚ) (h : volume < cfg.silence_threshold)
    (hs : s.silence_start = some t0) (hr : s.record_start_time = some r0)
    (hnc : ¬ (now - t0 ≥ cfg.silence_duration ∧
              now - r0 ≥ cfg.min_record_duration)) :
    recordTick cfg s f volume now =
      ({ s with audio_buffer := s.audio_buffer ++ [f] }, []) := by
  by_cases h1 : now - t0 ≥ cfg.silence_duration
  · have h2 : ¬ now - r0 ≥ cfg.min_record_duration := fun h2 => hnc ⟨h1, h2⟩
    simp [recordTick, h, hs, hr, h1, h2]
  · simp [recordTick, h, hs, h1]

/-- A recording tick on a silent frame satisfying both close conditions
finalizes: the appended buffer is flattened and dispatched, the state
leaves recording, and the silence timer is cleared. -/
theorem rt_silent_close (cfg : Config) (s : Recorder) (f : Frame)
    (volume now t0 r0 : ℚ) (h : volume < cfg.silence_threshold)
    (hs : s.silence_start = some t0) (hr : s.record_start_time = some r0)
    (h1 : now - t0 ≥ cfg.silence_duration)
    (h2 : now - r0 ≥ cfg.min_record_duration) :
    recordTick cfg s f volume now =
      ({ s with audio_buffer := [], is_recording := false,
                silence_start := none },
       [Event.showProcessing,
        Event.dispatch (s.audio_buffer ++ [f]).flatten]) := by
  simp [recordTick, h, hs, hr, h1, h2, process_recording]

/-- Running a quiet trace (never above the voice threshold) while
listening but not recording changes nothing and emits nothing. -/
theorem run_idle (cfg : Config) (l : List (Frame × ℚ)) :
    ∀ s : Recorder, s.is_listening = true → s.is_recording = false →
    (∀ p ∈ l, ¬ calculate_volume p.1 > cfg.voice_threshold) →
    runCallbacks cfg s l = (s, []) := by
  induction l with
  | nil => intro s _ _ _; rfl
  | cons p rest ih =>
    obtain ⟨f, t⟩ := p
    intro s hl hr hq
    have hstep := cb_idle_quiet cfg s f t hl hr (hq (f, t) (by simp))
    simp only [runCallbacks, hstep]
    rw [ih s hl hr (fun p hp => hq p (List.mem_cons_of_mem _ hp))]
    rfl

/-- Running a trace of frames all at or above the silence threshold and
all at or below the voice threshold, while recording with no silence timer,
just appends every frame: no timer ever starts and no close fires. -/
theorem run_band (cfg : Config) (l : List (Frame × ℚ)) :
    ∀ s : Recorder, s.is_listening = true → s.is_recording = true →
    s.silence_start = none →
    (∀ p ∈ l, ¬ calculate_volume p.1 < cfg.silence_threshold) →
    runCallbacks cfg s l =
      ({ s with audio_buffer := s.audio_buffer ++ l.map Prod.fst }, []) := by
  induction l with
  | nil => intro s hl hr hs _; simp [runCallbacks]
  | cons p rest ih =>
    obtain ⟨f, t⟩ := p
    intro s hl hr hs hq
    have hstep := cb_recording cfg s f t hl hr
    rw [rt_loud cfg s f (calculate_volume f) t (hq (f, t) (by simp))] at hstep
    simp only [runCallbacks, hstep]
    rw [ih { s with audio_buffer := s.audio_buffer ++ [f], silence_start := none } hl hr rfl (fun p hp => hq p (List.mem_cons_of_mem _ hp))]
    simp [hs]

/-- Running a concatenated trace runs the two halves in sequence and
concatenates the emitted events. -/
theorem runCallbacks_append (cfg : Config) (l1 l2 : List (Frame × ℚ)) :
    ∀ s : Recorder, runCallbacks cfg s (l1 ++ l2) =
      ((runCallbacks cfg (runCallbacks cfg s l1).1 l2).1,
       (runCallbacks cfg s l1).2 ++
         (runCallbacks cfg (runCallbacks cfg s l1).1 l2).2) := by
  induction l1 with
  | nil => intro s; simp [runCallbacks]
  | cons p rest ih =>
    obtain ⟨f, t⟩ := p
    intro s
    simp only [List.cons_append, runCallbacks, List.append_eq]
    rw [ih (audio_callback cfg s f t).1]
    simp [List.append_assoc]

/-- Running a trace of silent frames while recording with an armed silence
timer started at `t0`, none of which satisfies both close conditions, only
appends the frames: the close is deferred and the timer is not reset. -/
theorem run_pending (cfg : Config) (t0 r0 : ℚ) (l : List (Frame × ℚ)) :
    ∀ s : Recorder, s.is_listening = true → s.is_recording = true →
    s.silence_start = some t0 → s.record_start_time = some r0 →
    (∀ p ∈ l, calculate_volume p.1 < cfg.silence_threshold ∧
      ¬ (p.2 - t0 ≥ cfg.silence_duration ∧
         p.2 - r0 ≥ cfg.min_record_duration)) →
    runCallbacks cfg s l =
      ({ s with audio_buffer := s.audio_buffer ++ l.map Prod.fst }, []) := by
  induction l with
  | nil => intro s _ _ _ _ _; simp [runCallbacks]
  | cons p rest ih =>
    obtain ⟨f, t⟩ := p
    intro s hl hr hs hrt hq
    have hstep := cb_recording cfg s f t hl hr
    rw [rt_silent_pending cfg s f (calculate_volume f) t t0 r0
        (hq (f, t) (by simp)).1 hs hrt (hq (f, t) (by simp)).2] at hstep
    simp only [runCallbacks, hstep]
    rw [ih { s with audio_buffer := s.audio_buffer ++ [f] } hl hr hs hrt (fun p hp => hq p (List.mem_cons_of_mem _ hp))]
    simp

end STTApp

namespace STTApp

/-- Claim C2: a frame with volume strictly above `voice_threshold`
arriving while listening and not recording turns recording on in the same
tick, resets the buffer to exactly that frame, stamps
`record_start_time = now`, clears the silence timer, and emits the
`recording-started` event exactly once. -/
theorem C2_voice_start (cfg : Config) (s : Recorder) (frame : Frame)
    (now : ℚ) (hord : cfg.silence_threshold ≤ cfg.voice_threshold)
    (hl : s.is_listening = true) (hr : s.is_recording = false)
    (hv : calculate_volume frame > cfg.voice_threshold) :
    audio_callback cfg s frame now =
      ({ s with is_recording := true, audio_buffer := [frame],
                record_start_time := some now, silence_start := none },
       [Event.recordingStarted]) := by
  have hnv : ¬ calculate_volume frame < cfg.silence_threshold :=
    not_lt.mpr (le_of_lt (lt_of_le_of_lt hord hv))
  simp [audio_callback, recordTick, hl, hr, hv, hnv]

theorem C2_witness :
    audio_callback defaultConfig ⟨false, true, [], none, none⟩ [1] 5 =
      (⟨true, true, [[1]], none, some 5⟩, [Event.recordingStarted]) := by
  have h := C2_voice_start defaultConfig ⟨false, true, [], none, none⟩ [1] 5
    (by norm_num [defaultConfig]) rfl rfl
    (by norm_num [calculate_volume, defaultConfig, abs_of_nonneg])
  exact h

/-- Claim C3: volumes strictly inside the hysteresis band
(`silence_threshold`, `voice_threshold`) never change the recording state:
while recording (with no silence timer running) every such frame is merely
appended, the silence timer never starts and no close fires; while waiting
such frames change nothing and start no recording. -/
theorem C3_hysteresis_band (cfg : Config) (s : Recorder)
    (l : List (Frame × ℚ)) (hl : s.is_listening = true)
    (hband : ∀ p ∈ l, cfg.silence_threshold < calculate_volume p.1 ∧
      calculate_volume p.1 < cfg.voice_threshold) :
    (s.is_recording = true → s.silence_start = none →
      runCallbacks cfg s l =
        ({ s with audio_buffer := s.audio_buffer ++ l.map Prod.fst }, [])) ∧
    (s.is_recording = false → runCallbacks cfg s l = (s, [])) := by
  constructor
  · intro hr hs
    exact run_band cfg l s hl hr hs
      (fun p hp => not_lt.mpr (le_of_lt (hband p hp).1))
  · intro hr
    exact run_idle cfg l s hl hr
      (fun p hp => not_lt.mpr (le_of_lt (hband p hp).2))

/-- Claim C1: while recording, if silence persists continuously from the
first silent frame (time `t0`) and a later silent frame arrives at a time
`tc` with `tc - t0` at least `silence_duration` and `tc - r0` at least
`min_record_duration`, then exactly one close fires through
`process_recording`: the state leaves recording, the silence timer is
cleared, further silent frames do nothing, and the dispatched utterance is
the concatenation of every frame appended since the recording began,
silent run included.  The second conjunct states the deferral: over the
silent frames before the close conditions hold, nothing is emitted and the
silence timer keeps its original value `t0`, so a close blocked only by
`min_record_duration` stays armed. -/
theorem C1_silence_close (cfg : Config) (s : Recorder) (r0 : ℚ) (f0 : Frame)
    (t0 : ℚ) (pre : List (Frame × ℚ)) (fc : Frame) (tc : ℚ)
    (post : List (Frame × ℚ))
    (hord : cfg.silence_threshold ≤ cfg.voice_threshold)
    (hl : s.is_listening = true) (hr : s.is_recording = true)
    (hs : s.silence_start = none) (hrt : s.record_start_time = some r0)
    (hv0 : calculate_volume f0 < cfg.silence_threshold)
    (hpre : ∀ p ∈ pre, calculate_volume p.1 < cfg.silence_threshold ∧
      ¬ (p.2 - t0 ≥ cfg.silence_duration ∧
         p.2 - r0 ≥ cfg.min_record_duration))
    (hvc : calculate_volume fc < cfg.silence_threshold)
    (hc1 : tc - t0 ≥ cfg.silence_duration)
    (hc2 : tc - r0 ≥ cfg.min_record_duration)
    (hpost : ∀ p ∈ post, calculate_volume p.1 < cfg.silence_threshold) :
    runCallbacks cfg s ((f0, t0) :: (pre ++ (fc, tc) :: post)) =
      ({ s with is_recording := false, audio_buffer := [],
                silence_start := none },
       [Event.showProcessing,
        Event.dispatch
          ((s.audio_buffer ++ f0 :: pre.map Prod.fst) ++ [fc]).flatten]) ∧
    runCallbacks cfg s ((f0, t0) :: pre) =
      ({ s with audio_buffer := s.audio_buffer ++ f0 :: pre.map Prod.fst,
                silence_start := some t0 }, []) := by
  have hstep0 : audio_callback cfg s f0 t0 =
      ({ s with audio_buffer := s.audio_buffer ++ [f0],
                silence_start := some t0 }, []) := by
    rw [cb_recording cfg s f0 t0 hl hr,
        rt_silent_first cfg s f0 (calculate_volume f0) t0 hv0 hs]
  have hpreRun := run_pending cfg t0 r0 pre
    { s with audio_buffer := s.audio_buffer ++ [f0], silence_start := some t0 }
    hl hr rfl hrt hpre
  have hconj2 : runCallbacks cfg s ((f0, t0) :: pre) =
      ({ s with audio_buffer := s.audio_buffer ++ f0 :: pre.map Prod.fst,
                silence_start := some t0 }, []) := by
    simp only [runCallbacks, hstep0, hpreRun]
    simp
  have hstepC : audio_callback cfg
      { s with audio_buffer := s.audio_buffer ++ f0 :: pre.map Prod.fst,
               silence_start := some t0 } fc tc =
      ({ s with is_recording := false, audio_buffer := [],
                silence_start := none },
       [Event.showProcessing,
        Event.dispatch
          ((s.audio_buffer ++ f0 :: pre.map Prod.fst) ++ [fc]).flatten]) := by
    rw [cb_recording cfg
        { s with audio_buffer := s.audio_buffer ++ f0 :: pre.map Prod.fst,
                 silence_start := some t0 } fc tc hl hr,
      rt_silent_close cfg
        { s with audio_buffer := s.audio_buffer ++ f0 :: pre.map Prod.fst,
                 silence_start := some t0 } fc (calculate_volume fc) tc t0 r0
        hvc rfl hrt hc1 hc2]
  have hpostRun := run_idle cfg post
    { s with is_recording := false, audio_buffer := [],
             silence_start := none }
    hl rfl
    (fun p hp => not_lt.mpr (le_of_lt (lt_of_lt_of_le (hpost p hp) hord)))
  refine ⟨?_, hconj2⟩
  have hsplit : ((f0, t0) :: (pre ++ (fc, tc) :: post)) =
      ((f0, t0) :: pre) ++ ((fc, tc) :: post) := by simp
  rw [hsplit, runCallbacks_append cfg ((f0, t0) :: pre) ((fc, tc) :: post) s,
      hconj2]
  simp only [runCallbacks, hstepC, hpostRun]
  simp

theorem C1_witness :
    runCallbacks defaultConfig ⟨true, true, [[1]], none, some 0⟩
        [([0], 0.1), ([0], 0.2), ([0], 0.6), ([0], 0.7)] =
      (⟨false, true, [], none, some 0⟩,
       [Event.showProcessing, Event.dispatch [1, 0, 0, 0]]) := by
  have h := (C1_silence_close defaultConfig ⟨true, true, [[1]], none, some 0⟩
    0 [0] 0.1 [([0], 0.2)] [0] 0.6 [([0], 0.7)]
    (by norm_num [defaultConfig]) rfl rfl rfl rfl
    (by norm_num [calculate_volume, defaultConfig])
    (by
      intro p hp
      simp only [List.mem_singleton] at hp
      subst hp
      refine ⟨by norm_num [calculate_volume, defaultConfig], ?_⟩
      rintro ⟨ha, -⟩
      norm_num [defaultConfig] at ha)
    (by norm_num [calculate_volume, defaultConfig])
    (by norm_num [defaultConfig]) (by norm_num [defaultConfig])
    (by
      intro p hp
      simp only [List.mem_singleton] at hp
      subst hp
      norm_num [calculate_volume, defaultConfig])).1
  simpa using h

/-- The UI-facing listening flag is untouched by `process_recording`. -/
theorem process_recording_listening (s : Recorder) :
    (process_recording s).1.is_listening = s.is_listening := by
  unfold process_recording
  split <;> rfl

/-- Whatever the branch taken, `stop_listening` ends in the same idle
shape: not listening, not recording, empty buffer, no silence timer, with
the recording start time left alone. -/
theorem stop_listening_state (cfg : Config) (s : Recorder) (now : ℚ) :
    (stop_listening cfg s now).1 =
      { s with is_listening := false, is_recording := false,
               audio_buffer := [], silence_start := none } := by
  unfold stop_listening
  dsimp only
  split
  · split
    · split
      · unfold process_recording
        split
        · rfl
        · rfl
      · rfl
    · rfl
  · rfl

/-- Claim C4: `stop_listening` force-closes and dispatches the buffer when
a recording has lasted at least `min_record_duration`, discards it without
dispatch otherwise; afterwards the listening and recording flags are down
and the buffer and silence timer are cleared; and a second call is a no-op
that emits nothing, so no duplicate close can occur. -/
theorem C4_stop_listening (cfg : Config) (s : Recorder) (now now2 : ℚ) :
    (∀ r0 : ℚ, s.is_recording = true → s.audio_buffer ≠ [] →
      s.record_start_time = some r0 → now - r0 ≥ cfg.min_record_duration →
      stop_listening cfg s now =
        ({ s with is_listening := false, is_recording := false,
                  audio_buffer := [], silence_start := none },
         [Event.showProcessing,
          Event.dispatch s.audio_buffer.flatten])) ∧
    ((s.is_recording = false ∨ s.audio_buffer = [] ∨
      (∀ r0 : ℚ, s.record_start_time = some r0 →
        ¬ now - r0 ≥ cfg.min_record_duration)) →
      stop_listening cfg s now =
        ({ s with is_listening := false, is_recording := false,
                  audio_buffer := [], silence_start := none }, [])) ∧
    ((stop_listening cfg s now).1.is_listening = false ∧
     (stop_listening cfg s now).1.is_recording = false ∧
     (stop_listening cfg s now).1.audio_buffer = [] ∧
     (stop_listening cfg s now).1.silence_start = none) ∧
    stop_listening cfg (stop_listening cfg s now).1 now2 =
      ((stop_listening cfg s now).1, []) := by
  refine ⟨?_, ?_, ?_, ?_⟩
  · intro r0 hr hb hrt hd
    simp [stop_listening, process_recording, hr, hb, hrt, hd]
  · intro h
    by_cases hr : s.is_recording = true
    · by_cases hb : s.audio_buffer = []
      · simp [stop_listening, hb]
      · have hno : ∀ r0 : ℚ, s.record_start_time = some r0 →
            ¬ now - r0 ≥ cfg.min_record_duration := by
          rcases h with h | h | h
          · rw [hr] at h; exact absurd h (by simp)
          · exact absurd h hb
          · exact h
        rcases hrst : s.record_start_time with _ | r0
        · simp [stop_listening, hr, hb, hrst]
        · simp [stop_listening, hr, hb, hrst, hno r0 hrst]
    · have hr2 : s.is_recording = false := by simpa using hr
      simp [stop_listening, hr2]
  · rw [stop_listening_state]
    exact ⟨rfl, rfl, rfl, rfl⟩
  · rw [stop_listening_state]
    simp [stop_listening]

theorem C4_witness :
    stop_listening defaultConfig ⟨true, true, [[1], [2]], none, some 0⟩ 1 =
      (⟨false, false, [], none, some 0⟩,
       [Event.showProcessing, Event.dispatch [1, 2]]) ∧
    stop_listening defaultConfig ⟨true, true, [[1], [2]], none, some 0⟩ 0.1 =
      (⟨false, false, [], none, some 0⟩, []) := by
  constructor
  · have h := (C4_stop_listening defaultConfig
      ⟨true, true, [[1], [2]], none, some 0⟩ 1 0).1 0 rfl (by simp) rfl
      (by norm_num [defaultConfig])
    simpa using h
  · have h := (C4_stop_listening defaultConfig
      ⟨true, true, [[1], [2]], none, some 0⟩ 0.1 0).2.1
      (Or.inr (Or.inr (by
        intro r0 hr0
        simp only [Option.some.injEq] at hr0
        subst hr0
        norm_num [defaultConfig])))
    simpa using h

theorem C3_witness :
    runCallbacks defaultConfig ⟨true, true, [[1]], none, some 0⟩
        [([0.017], 1), ([0.018], 2)] =
      (⟨true, true, [[1], [0.017], [0.018]], none, some 0⟩, []) ∧
    runCallbacks defaultConfig ⟨false, true, [], none, none⟩
        [([0.017], 1), ([0.018], 2)] =
      (⟨false, true, [], none, none⟩, []) := by
  have hband : ∀ p ∈ ([([(0.017 : ℚ)], (1 : ℚ)), ([0.018], 2)] :
      List (Frame × ℚ)),
      defaultConfig.silence_threshold < calculate_volume p.1 ∧
      calculate_volume p.1 < defaultConfig.voice_threshold := by
    intro p hp
    simp only [List.mem_cons, List.not_mem_nil, or_false] at hp
    rcases hp with h | h <;> subst h <;>
      constructor <;> norm_num [calculate_volume, defaultConfig, abs_of_nonneg]
  constructor
  · exact (C3_hysteresis_band defaultConfig ⟨true, true, [[1]], none, some 0⟩
      [([0.017], 1), ([0.018], 2)] rfl hband).1 rfl rfl
  · exact (C3_hysteresis_band defaultConfig ⟨false, true, [], none, none⟩
      [([0.017], 1), ([0.018], 2)] rfl hband).2 rfl

/-- The initial recorder state satisfies the invariant. -/
theorem Inv_init : Inv initState := by
  simp [Inv, initState]

/-- `process_recording` preserves the invariant. -/
theorem Inv_process (s : Recorder) (h : Inv s) : Inv (process_recording s).1 := by
  unfold process_recording
  split
  · exact h
  · exact ⟨by simp, by simp, by simp⟩

/-- The recording body of the callback preserves the invariant, for any
listening recording state. -/
theorem Inv_recordTick (cfg : Config) (s : Recorder) (f : Frame)
    (vol now : ℚ) (hl : s.is_listening = true) (hr : s.is_recording = true) :
    Inv (recordTick cfg s f vol now).1 := by
  have h2 : Inv ({ s with audio_buffer := s.audio_buffer ++ [f] } : Recorder) :=
    ⟨fun _ => by simp, by simp [hr], by simp [hl]⟩
  have h3 : Inv ({ s with audio_buffer := s.audio_buffer ++ [f], silence_start := some now } : Recorder) :=
    ⟨fun _ => by simp, by simp [hr], by simp [hl]⟩
  have h4 : Inv ({ s with audio_buffer := s.audio_buffer ++ [f], silence_start := none } : Recorder) :=
    ⟨fun _ => by simp, by simp [hr], by simp [hl]⟩
  unfold recordTick
  dsimp only
  split
  · split
    · exact h3
    · split
      · split
        · split
          · exact Inv_process _ h2
          · exact h2
        · exact h2
      · exact h2
  · exact h4

/-- `audio_callback` preserves the invariant. -/
theorem Inv_callback (cfg : Config) (s : Recorder) (f : Frame) (now : ℚ)
    (h : Inv s) : Inv (audio_callback cfg s f now).1 := by
  by_cases hl : s.is_listening = true
  · by_cases hr : s.is_recording = true
    · rw [cb_recording cfg s f now hl hr]
      exact Inv_recordTick cfg s f (calculate_volume f) now hl hr
    · have hr2 : s.is_recording = false := by
        cases hri : s.is_recording
        · rfl
        · exact absurd hri hr
      by_cases hv : calculate_volume f > cfg.voice_threshold
      · simp only [audio_callback, hl, hr2, hv]
        simp only [Bool.true_eq_false, if_false, and_self, if_true]
        exact Inv_recordTick cfg
          { s with is_listening := true, is_recording := true,
                   audio_buffer := [], record_start_time := some now,
                   silence_start := none }
          f (calculate_volume f) now rfl rfl
      · simp only [audio_callback, hl, hr2, hv]
        simpa using h
  · have hl2 : s.is_listening = false := by
      cases hli : s.is_listening
      · rfl
      · exact absurd hli hl
    simp only [audio_callback, hl2]
    simpa using h

/-- `start_listening` preserves the invariant (in both the stream-opened
and the stream-failed case). -/
theorem Inv_start (s : Recorder) (ok : Bool) (h : Inv s) :
    Inv (start_listening s ok) := by
  unfold start_listening
  split
  · exact h
  · rename_i hnl
    have hl2 : s.is_listening = false := by
      cases hli : s.is_listening
      · rfl
      · exact absurd hli hnl
    have hrec : s.is_recording = false := h.2.2 hl2
    split
    · exact ⟨by simp [hrec], by simp, by simp [hrec]⟩
    · exact ⟨by simp [hrec], by simp, by simp [hrec]⟩

/-- `stop_listening` establishes the invariant outright. -/
theorem Inv_stop (cfg : Config) (s : Recorder) (now : ℚ) :
    Inv (stop_listening cfg s now).1 := by
  rw [stop_listening_state]
  exact ⟨by simp, by simp, by simp⟩

/-- Every reachable recorder state satisfies the invariant. -/
theorem Reachable_Inv (cfg : Config) (s : Recorder) (h : Reachable cfg s) :
    Inv s := by
  induction h with
  | init => exact Inv_init
  | callback s f now _ ih => exact Inv_callback cfg s f now ih
  | process s _ ih => exact Inv_process s ih
  | start s ok _ ih => exact Inv_start s ok ih
  | stop s now _ _ => exact Inv_stop cfg s now

/-- After a callback tick on a frame at or above the silence threshold,
the silence timer is unset, whatever branch was taken. -/
theorem silence_cleared_on_loud (cfg : Config) (s : Recorder) (f : Frame)
    (now : ℚ) (h : Inv s)
    (hv : cfg.silence_threshold ≤ calculate_volume f) :
    (audio_callback cfg s f now).1.silence_start = none := by
  have hnv : ¬ calculate_volume f < cfg.silence_threshold := not_lt.mpr hv
  by_cases hl : s.is_listening = true
  · by_cases hr : s.is_recording = true
    · rw [cb_recording cfg s f now hl hr,
          rt_loud cfg s f (calculate_volume f) now hnv]
    · have hr2 : s.is_recording = false := by
        cases hri : s.is_recording
        · rfl
        · exact absurd hri hr
      by_cases hvv : calculate_volume f > cfg.voice_threshold
      · simp only [audio_callback, hl, hr2, hvv]
        simp only [Bool.true_eq_false, if_false, and_self, if_true]
        rw [rt_loud cfg
          { s with is_listening := true, is_recording := true,
                   audio_buffer := [], record_start_time := some now,
                   silence_start := none }
          f (calculate_volume f) now hnv]
      · simp only [audio_callback, hl, hr2, hvv]
        simpa using h.2.1 hr2
  · have hl2 : s.is_listening = false := by
      cases hli : s.is_listening
      · rfl
      · exact absurd hli hl
    simp only [audio_callback, hl2]
    simpa using h.2.1 (h.2.2 hl2)

/-- Claim C7: the state invariant (a recording state has a non-empty
buffer; the silence timer is unset when not recording, and also right
after any tick whose observed volume was at or above the silence
threshold) holds in every reachable recorder state and is preserved by
every operation: callback tick, `process_recording`, `start_listening`
and `stop_listening`. -/
theorem C7_state_invariant :
    (∀ (cfg : Config) (s : Recorder), Reachable cfg s →
      (s.is_recording = true → s.audio_buffer ≠ []) ∧
      (s.is_recording = false → s.silence_start = none)) ∧
    (∀ (cfg : Config) (s : Recorder) (f : Frame) (now : ℚ), Inv s →
      Inv (audio_callback cfg s f now).1) ∧
    (∀ s : Recorder, Inv s → Inv (process_recording s).1) ∧
    (∀ (s : Recorder) (ok : Bool), Inv s → Inv (start_listening s ok)) ∧
    (∀ (cfg : Config) (s : Recorder) (now : ℚ),
      Inv (stop_listening cfg s now).1) ∧
    (∀ (cfg : Config) (s : Recorder) (f : Frame) (now : ℚ), Inv s →
      cfg.silence_threshold ≤ calculate_volume f →
      (audio_callback cfg s f now).1.silence_start = none) :=
  ⟨fun cfg s h => ⟨(Reachable_Inv cfg s h).1, (Reachable_Inv cfg s h).2.1⟩,
   Inv_callback, Inv_process, Inv_start, Inv_stop,
   silence_cleared_on_loud⟩

theorem C7_witness :
    (initState.is_recording = true → initState.audio_buffer ≠ []) ∧
    (initState.is_recording = false → initState.silence_start = none) :=
  C7_state_invariant.1 defaultConfig initState Reachable.init

/-- Claim C5: an utterance shorter than 0.3 s, or whose serialized WAV
file is smaller than the 5000-byte floor, is dropped by `_send_audio`
before any network call: no POST is attempted and no result is shown. -/
theorem C5_short_utterance_dropped (cfg : Config) (audio_data : List ℚ)
    (net : NetOutcome)
    (h : (audio_data.length : ℚ) < cfg.sample_rate * 0.3 ∨
         wavSize audio_data.length < 5000) :
    (sendAudio cfg audio_data net).posted = false ∧
    (sendAudio cfg audio_data net).resultShown = none := by
  unfold sendAudio
  by_cases h1 : (audio_data.length : ℚ) < cfg.sample_rate * 0.3
  · simp [h1]
  · have h2 : wavSize audio_data.length < 5000 := h.resolve_left h1
    simp [h1, h2]

theorem C5_witness :
    (sendAudio defaultConfig [] NetOutcome.connectionError).posted = false ∧
    (sendAudio defaultConfig [] NetOutcome.connectionError).resultShown =
      none :=
  C5_short_utterance_dropped defaultConfig [] NetOutcome.connectionError
    (Or.inl (by norm_num [defaultConfig]))

/-- Claim C6 counterexample: on a 4800-sample (0.3 s) utterance the temp
WAV file is created, but when the POST raises a connection error the file
is never deleted: the `except` handlers of `_send_audio` skip the
`os.unlink` that sits at the end of the `try` block, contradicting the
requirement that the transport file be released on every outcome. -/
theorem C6_temp_file_leak :
    (sendAudio defaultConfig (List.replicate 4800 0)
        NetOutcome.connectionError).tempCreated = true ∧
    (sendAudio defaultConfig (List.replicate 4800 0)
        NetOutcome.connectionError).tempDeleted = false := by
  have h1 : ¬ ((List.replicate 4800 (0 : ℚ)).length : ℚ) <
      defaultConfig.sample_rate * 0.3 := by
    simp only [List.length_replicate]
    norm_num [defaultConfig]
  have h2 : ¬ wavSize (List.replicate 4800 (0 : ℚ)).length < 5000 := by
    simp only [List.length_replicate, wavSize]
    norm_num
  unfold sendAudio
  rw [if_neg h1, if_neg h2]
  exact ⟨rfl, rfl⟩

/-- Claim C8: when transcription succeeded and the translation stage
fails (the oracle raises at any point of the chosen direction), the
server still replies with success, the stripped original text and the
detected language, and the sentinel failure string in place of the
translation. -/
theorem C8_translation_failure_partial_result
    (tr : String → String → String → Option String) (rawText lang : String)
    (h : translateText tr lang rawText.trim = none) :
    speech_to_text tr rawText lang =
      { success := true, original := rawText.trim,
        translated := "(번역 실패)", language := lang } := by
  simp [speech_to_text, h]

theorem C8_witness :
    speech_to_text (fun _ _ _ => none) "hello" "ko" =
      { success := true, original := "hello".trim,
        translated := "(번역 실패)", language := "ko" } :=
  C8_translation_failure_partial_result (fun _ _ _ => none) "hello" "ko"
    (by simp [translateText])

end STTApp
